import Mathlib

/-!
Verification of the WFLY Music backend core (`server.js`): a shallow embedding
of the session manager, the realtime connection registry and broadcast router,
the playback-state store and the Range-streaming endpoint, together with
theorems settling the specification's claims against the embedded code.

Conventions: JavaScript numbers appearing in the embedded fragments are exact
integers at every relevant scale, so they are modelled as `Int` (or `Nat` for
parsed digit strings); filesystem paths are lists of segments; MongoDB
collections are association lists; fallible handlers return sum-like result
types mirroring the HTTP statuses of the source.
-/

namespace WFLY

/-! ## Path arithmetic (Node `path.resolve` / `path.relative` on segment lists) -/

/-- One normalization step of Node `path.resolve`: `"."` is dropped, `".."`
pops the last segment (staying at the root when already there), and any other
segment is appended. -/
def resolveStep (acc : List String) (seg : String) : List String :=
  if seg == "." then acc
  else if seg == ".." then acc.dropLast
  else acc ++ [seg]

/-- `path.resolve(base, rel)` for an already-normalized absolute `base`
(`CFG.STORE_DIR`) and a relative path `rel` (`track.fileRel`), as used at
server.js:906. -/
def resolvePath (base rel : List String) : List String :=
  rel.foldl resolveStep base

/-- Drop the longest common prefix of two segment lists, as Node
`path.relative` does before emitting `".."` segments. -/
def dropCommon : List String → List String → List String × List String
  | a :: moreA, b :: moreB =>
    if a == b then dropCommon moreA moreB else (a :: moreA, b :: moreB)
  | restA, restB => (restA, restB)

/-- Node `path.relative(f, t)` on normalized absolute segment lists: one `".."`
per remaining segment of `f`, then the remaining segments of `t`. -/
def nodeRelative (f t : List String) : List String :=
  let p := dropCommon f t
  p.1.map (fun _ => "..") ++ p.2

/-- `rel.startsWith('..')` on the first path segment: its first two characters
are dots. -/
def startsWithDotDot (s : String) : Bool :=
  match s.data with
  | '.' :: '.' :: _ => true
  | _ => false

/-- `assertRelativeToStore` (server.js:140-144): computes
`path.relative(CFG.STORE_DIR, abs)` and throws when the result starts with
`".."`; otherwise returns the relative path. The string-level
`rel.startsWith('..')` test is a test on the first segment. -/
def assertRelativeToStore (store abs : List String) : Except String (List String) :=
  let rel := nodeRelative store abs
  if (rel.head?.map startsWithDotDot).getD false then
    .error "File must be inside STORE_DIR"
  else
    .ok rel

/-! ## Content types (server.js:130-138) -/

/-- Suffix of a character list from its last `'.'` onward, if any. -/
def extnameAux : List Char → Option (List Char)
  | [] => none
  | c :: cs =>
    match extnameAux cs with
    | some e => some e
    | none => if c == '.' then some (c :: cs) else none

/-- Node `path.extname` on one path segment: the substring from the last dot,
empty when there is no dot or the only dot is the leading character. -/
def extname (seg : String) : String :=
  match extnameAux seg.toList with
  | some e => if e.length == seg.toList.length then "" else String.mk e
  | none => ""

/-- `ext.toLowerCase()`, character by character. -/
def lowerString (s : String) : String :=
  String.mk (s.data.map Char.toLower)

/-- `safeContentTypeByExt` (server.js:130-138): a fixed table from the
lowercased extension of the resolved file path. -/
def safeContentTypeByExt (fileAbs : List String) : String :=
  let ext := lowerString (extname ((fileAbs.getLast?).getD ""))
  if ext == ".mp3" then "audio/mpeg"
  else if ext == ".m4a" || ext == ".mp4" || ext == ".aac" then "audio/mp4"
  else if ext == ".ogg" || ext == ".oga" then "audio/ogg"
  else if ext == ".flac" then "audio/flac"
  else if ext == ".wav" then "audio/wav"
  else "application/octet-stream"

/-! ## Range parsing (server.js:920-923) -/

/-- `parseInt(d, 10)` on a match of `\d+` (claims only involve magnitudes
where JavaScript numbers are exact). -/
def digitsToNat (cs : List Char) : Nat :=
  cs.foldl (fun n c => n * 10 + (c.toNat - 48)) 0

/-- The part of `^bytes=(\d+)-(\d*)$` after `bytes=`: a non-empty digit run,
a dash, a possibly-empty digit run, and nothing else. Since `\d` cannot match
a dash, taking the maximal digit runs recognizes exactly the regex language. -/
def parseRangeRest (cs : List Char) : Option (Nat × Option Nat) :=
  let d1 := cs.takeWhile Char.isDigit
  match cs.dropWhile Char.isDigit with
  | '-' :: rest =>
    let d2 := rest.takeWhile Char.isDigit
    if d1 ≠ [] ∧ rest.dropWhile Char.isDigit = [] then
      some (digitsToNat d1, if d2 = [] then none else some (digitsToNat d2))
    else none
  | _ => none

/-- The regex `^bytes=(\d+)-(\d*)$` of the stream handler (server.js:920):
returns the parsed start and the optional parsed end, `none` when the header
is malformed. -/
def parseRange (s : String) : Option (Nat × Option Nat) :=
  match s.data with
  | 'b' :: 'y' :: 't' :: 'e' :: 's' :: '=' :: rest => parseRangeRest rest
  | _ => none

/-- The resolved inclusive end position (server.js:923): an explicit end is
capped at `total - 1`; an omitted end defaults to one mebibyte past the start,
likewise capped. -/
def resolvedEnd (start : Nat) (eo : Option Nat) (total : Int) : Int :=
  match eo with
  | some e => min (e : Int) (total - 1)
  | none => min ((start : Int) + 1024 * 1024 - 1) (total - 1)

/-! ## The stream endpoint (server.js:899-933) -/

/-- A track document, reduced to the field the stream endpoint reads. -/
structure Track where
  fileRel : List String
deriving Repr, DecidableEq

/-- A request to `GET /api/tracks/:id/stream`: the track id, the optional
`Range` header, and the optional `Authorization` header (which the handler
never reads — the route is not wrapped in `requireAuth`). -/
structure StreamReq where
  trackId : String
  range : Option String
  authorization : Option String
deriving Repr, DecidableEq

/-- The observable response: status, the headers the claims mention, and the
served bytes. -/
structure StreamResp where
  status : Nat
  contentLength : Option Int
  contentRange : Option String
  contentType : Option String
  body : List Nat
deriving Repr, DecidableEq

/-- The `Content-Range` header value rendered at server.js:926. -/
def renderContentRange (s e total : Int) : String :=
  s!"bytes {s}-{e}/{total}"

/-- `fs.createReadStream(fileAbs, \x7bstart, end\x7d)`: the inclusive byte
slice. -/
def sliceBytes (bytes : List Nat) (s e : Int) : List Nat :=
  (bytes.drop s.toNat).take (e - s + 1).toNat

/-- The filesystem: normalized absolute path to file bytes. -/
abbrev FileSys := List (List String × List Nat)

/-- The `416 Range Not Satisfiable` response: `res.status(416).end()` after
`Content-Type` was already set (server.js:912). -/
def resp416 (ctype : String) : StreamResp :=
  { status := 416, contentLength := none, contentRange := none
    contentType := some ctype, body := [] }

/-- The no-`Range` branch (server.js:916-918): `200` with the whole file. -/
def noRangeResp (ctype : String) (bytes : List Nat) : StreamResp :=
  { status := 200, contentLength := some (bytes.length : Int), contentRange := none
    contentType := some ctype, body := bytes }

/-- The `Range` branch (server.js:920-928). -/
def rangeResp (ctype : String) (bytes : List Nat) (r : String) : StreamResp :=
  match parseRange r with
  | none => resp416 ctype
  | some (s, eo) =>
    let total : Int := bytes.length
    let e := resolvedEnd s eo total
    if (s : Int) ≥ total ∨ e ≥ total then resp416 ctype
    else
      { status := 206, contentLength := some (e - (s : Int) + 1)
        contentRange := some (renderContentRange (s : Int) e total)
        contentType := some ctype, body := sliceBytes bytes (s : Int) e }

/-- `GET /api/tracks/:id/stream` (server.js:899-933): resolve the track,
resolve its stored relative path against the storage root (with no validation
that the result stays inside the root), stat the file, then serve whole-file
or ranged content. A missing track is `404`; a failing stat is caught as
`400`. The `Authorization` header is never consulted. -/
def streamHandler (tracks : List (String × Track)) (fsys : FileSys)
    (store : List String) (req : StreamReq) : StreamResp :=
  match tracks.lookup req.trackId with
  | none => { status := 404, contentLength := none, contentRange := none
              contentType := none, body := [] }
  | some tr =>
    let fileAbs := resolvePath store tr.fileRel
    match fsys.lookup fileAbs with
    | none => { status := 400, contentLength := none, contentRange := none
                contentType := none, body := [] }
    | some bytes =>
      match req.range with
      | none => noRangeResp (safeContentTypeByExt fileAbs) bytes
      | some r => rangeResp (safeContentTypeByExt fileAbs) bytes r

/-! ## Sessions and token refresh (server.js:160-169, 339-366) -/

/-- A session record of `colSessions`, reduced to the fields the refresh and
logout paths read. A record whose `disabled` field is absent is modelled by
`disabled := false`, matching the `disabled: \x7b$ne: true\x7d` query. -/
structure Session where
  uid : String
  refreshFp : String
  refreshHash : String
  disabled : Bool
  expiresAt : Int
deriving Repr, DecidableEq

/-- Models `fpToken` (server.js:163), the SHA-256 fingerprint of the raw
refresh secret, by a deterministic injective tagging (the functional contract
the handler relies on: equal secrets give equal fingerprints, distinct secrets
give distinct fingerprints). -/
def fpToken (raw : String) : String := "sha256:" ++ raw

/-- Models `hashToken` (server.js:162), `bcrypt.hashSync(raw, 10)`, by a
deterministic tagging with the contract relevant to verification. -/
def hashToken (raw : String) : String := "bcrypt:" ++ raw

/-- Models `bcrypt.compareSync(raw, hash)`: succeeds exactly when `hash` was
derived from `raw`. -/
def compareSync (raw hash : String) : Bool := hash == hashToken raw

/-- `verifyRefreshByFp` (server.js:165-169): the first session whose
fingerprint matches and which is not disabled. -/
def verifyRefreshByFp (sessions : List Session) (fp : String) : Option Session :=
  sessions.find? (fun s => s.refreshFp == fp && !s.disabled)

/-- Outcomes of `POST /api/auth/refresh`, in the order the handler can produce
them (server.js:339-361): `missingToken` is the 400, the middle three are the
401s, `ok` carries the subject and role of the freshly signed access token. -/
inductive RefreshResult where
  | missingToken
  | invalidSession
  | invalidRefresh
  | userNotFound
  | ok (uid role : String)
deriving Repr, DecidableEq

/-- `POST /api/auth/refresh` (server.js:339-361). The handler looks the session
up by fingerprint among non-disabled records, compares the presented secret
against the stored bcrypt hash, resolves the subject in `users` then `artists`,
and signs a fresh access token. The current time `now` is a parameter so that
the statement "`expiresAt` is never consulted" is expressible: the source
contains no comparison against `sess.expiresAt`. -/
def refreshHandler (sessions : List Session) (users artists : List String)
    (now : Int) (body : Option String) : RefreshResult :=
  match body with
  | none => .missingToken
  | some tok =>
    match verifyRefreshByFp sessions (fpToken tok) with
    | none => .invalidSession
    | some sess =>
      if !compareSync tok sess.refreshHash then .invalidRefresh
      else if users.contains sess.uid then .ok sess.uid "user"
      else if artists.contains sess.uid then .ok sess.uid "artist"
      else .userNotFound

/-- `POST /api/auth/logout` (server.js:363-366):
`updateOne(\x7buid\x7d, \x7b$set: \x7bdisabled: true\x7d\x7d)` — the first
record with the caller's uid is marked disabled. -/
def logoutHandler : List Session → String → List Session
  | [], _ => []
  | s :: rest, uid =>
    if s.uid == uid then { s with disabled := true } :: rest
    else s :: logoutHandler rest uid

/-! ## Connection registry and broadcast router (server.js:941-1010) -/

/-- A `WS_CLIENTS` entry: `uid` and `deviceId` are populated by the `hello`
handshake (`uid` only on successful token verification), `isOpen` models
`ws.readyState === ws.OPEN`. -/
structure ConnMeta where
  uid : Option String
  deviceId : Option String
  isOpen : Bool
deriving Repr, DecidableEq

/-- The in-memory connection table, connection id to entry. -/
abbrev Registry := List (String × ConnMeta)

/-- `broadcastRaw` (server.js:944-951): sends to every entry satisfying the
predicate whose socket is open; returns the connection ids that received the
message, in table order. -/
def broadcastRaw (reg : Registry) (pred : ConnMeta → Bool) : List String :=
  (reg.filter (fun c => pred c.2 && c.2.isOpen)).map (fun c => c.1)

/-- `broadcastToUser` (server.js:952): the predicate
`m.uid?.toString() === uidStr`. There is no exclusion parameter. -/
def broadcastToUser (reg : Registry) (uidStr : String) : List String :=
  broadcastRaw reg (fun m => m.uid == some uidStr)

/-! ## Playback state store (server.js:856-896, 988-1002) -/

/-- A `player_states` document. Every field is optional because documents are
created lazily by `$set` patches that carry only the caller's fields. -/
structure PState where
  trackId : Option String := none
  positionMs : Option Int := none
  isPlaying : Option Bool := none
  queue : Option (List String) := none
  currentIndex : Option Int := none
  activeDeviceId : Option String := none
  updatedBy : Option String := none
  updatedAt : Option Int := none
deriving Repr, DecidableEq

/-- The document a fresh upsert starts from. -/
def emptyPState : PState := {}

/-- A `$set` patch as built by `POST /api/player/state` (server.js:864-869) and
the `now_playing` message handler (server.js:991-994): `updatedAt` is always
stamped, `updatedBy` carries the writing device, and each optional field is
present exactly when the caller set it. -/
structure Patch where
  updatedAt : Int
  updatedBy : Option String
  trackId : Option String := none
  positionMs : Option Int := none
  isPlaying : Option Bool := none
  queue : Option (List String) := none
  currentIndex : Option Int := none
deriving Repr, DecidableEq

/-- MongoDB `$set` with the patch document: present fields overwrite, absent
fields are preserved; `activeDeviceId` is untouched by playback patches. -/
def applyPatch (st : PState) (p : Patch) : PState :=
  { trackId := p.trackId.orElse (fun _ => st.trackId)
    positionMs := p.positionMs.orElse (fun _ => st.positionMs)
    isPlaying := p.isPlaying.orElse (fun _ => st.isPlaying)
    queue := p.queue.orElse (fun _ => st.queue)
    currentIndex := p.currentIndex.orElse (fun _ => st.currentIndex)
    activeDeviceId := st.activeDeviceId
    updatedBy := p.updatedBy.orElse (fun _ => st.updatedBy)
    updatedAt := some p.updatedAt }

/-- `updateOne(\x7buid\x7d, \x7b$set: patch\x7d, \x7bupsert: true\x7d)` on the
states collection: merge into the first document keyed by `uid`, or create one
from scratch. -/
def upsertState : List (String × PState) → String → Patch → List (String × PState)
  | [], uid, p => [(uid, applyPatch emptyPState p)]
  | (k, st) :: rest, uid, p =>
    if k == uid then (k, applyPatch st p) :: rest
    else (k, st) :: upsertState rest uid p

/-- The value of a field after a sequence of patches: the value from the most
recent patch that set it, if any. -/
def lastSet {α : Type} (f : Patch → Option α) : List Patch → Option α
  | [] => none
  | p :: ps => (lastSet f ps).orElse (fun _ => f p)

/-- The default document returned by `GET /api/player/state` (server.js:857)
for a listener with no prior writes. -/
def defaultPlayerState : PState :=
  { isPlaying := some false, positionMs := some 0
    queue := some [], currentIndex := some 0 }

/-- The observable result of `GET /api/player/state`. -/
structure ReadStateResp where
  status : Nat
  state : PState
deriving Repr, DecidableEq

/-- `GET /api/player/state` (server.js:856-859): the stored document, or the
default; the handler cannot fail for an authenticated caller. -/
def readPlayerState (states : List (String × PState)) (uid : String) : ReadStateResp :=
  { status := 200, state := (states.lookup uid).getD defaultPlayerState }

/-! ## Broadcast-triggering handlers (server.js:887-896, 988-1002) -/

/-- A `now_playing` realtime message (server.js:988-997). -/
structure NowPlayingMsg where
  deviceId : Option String := none
  trackId : Option String := none
  positionMs : Option Int := none
  isPlaying : Option Bool := none
deriving Repr, DecidableEq

/-- The `now_playing` branch of the realtime message loop (server.js:988-997):
drop the message when the connection is unauthenticated, otherwise merge the
patch into the caller's state document and broadcast `player_state` to every
socket of the same uid — `broadcastToUser` has no exclusion, so the origin
connection is among the receivers. Returns the updated store and the list of
connection ids the message was sent to. -/
def wsNowPlaying (states : List (String × PState)) (reg : Registry)
    (connId : String) (msg : NowPlayingMsg) (now : Int) :
    List (String × PState) × List String :=
  match reg.lookup connId with
  | none => (states, [])
  | some meta =>
    match meta.uid with
    | none => (states, [])
    | some uid =>
      let p : Patch :=
        { updatedAt := now, updatedBy := msg.deviceId.orElse (fun _ => meta.deviceId)
          trackId := msg.trackId, positionMs := msg.positionMs
          isPlaying := msg.isPlaying }
      (upsertState states uid p, broadcastToUser reg uid)

/-- Outcome of `POST /api/player/control` (server.js:887-896): either the 400
`No active device` error (nothing sent), or 200 with the target device id that
was written into the message's `to` field and the connection ids the message
was broadcast to. -/
inductive ControlResult where
  | noActiveDevice
  | sent (target : String) (delivered : List String)
deriving Repr, DecidableEq

/-- `POST /api/player/control` (server.js:887-896): read the caller's state
document; without an `activeDeviceId` reply `400` and send nothing; otherwise
broadcast the command, tagged with `to`, via `broadcastToUser` — that is, to
every open socket of the caller, not only the target device. -/
def controlHTTP (states : List (String × PState)) (reg : Registry)
    (uid : String) : ControlResult :=
  match (states.lookup uid).bind (fun st => st.activeDeviceId) with
  | none => .noActiveDevice
  | some t => .sent t (broadcastToUser reg uid)

/-- The `control` branch of the realtime message loop (server.js:998-1002):
drop the message when the connection is unauthenticated; otherwise route to
the connections matching both the caller's uid and the target device id
(`msg.to`, falling back to the state document's `activeDeviceId`); no error is
surfaced when nothing matches. -/
def wsControl (states : List (String × PState)) (reg : Registry)
    (connId : String) (msgTo : Option String) : List String :=
  match (reg.lookup connId).bind (fun m => m.uid) with
  | none => []
  | some uid =>
    let t := msgTo.orElse (fun _ => (states.lookup uid).bind (fun st => st.activeDeviceId))
    broadcastRaw reg (fun m => m.uid == some uid && m.deviceId == t)

/-! ## Theorems: claims of the specification -/

/-- C9: for a listener with no prior playback-state writes, `GET
/api/player/state` succeeds (status 200, it cannot fail) and returns the
documented default document with `isPlaying = false`, `positionMs = 0`,
`queue = []`, `currentIndex = 0`. -/
theorem read_state_default (states : List (String × PState)) (uid : String)
    (h : states.lookup uid = none) :
    readPlayerState states uid = { status := 200, state := defaultPlayerState } ∧
    (readPlayerState states uid).state.isPlaying = some false ∧
    (readPlayerState states uid).state.positionMs = some 0 ∧
    (readPlayerState states uid).state.queue = some [] ∧
    (readPlayerState states uid).state.currentIndex = some 0 := by
  simp [readPlayerState, h, defaultPlayerState]

/-- Witness for C9: a freshly-registered listener against an empty store. -/
theorem read_state_default_witness :
    readPlayerState [] "listener1" = { status := 200, state := defaultPlayerState } ∧
    (readPlayerState [] "listener1").state.isPlaying = some false ∧
    (readPlayerState [] "listener1").state.positionMs = some 0 ∧
    (readPlayerState [] "listener1").state.queue = some [] ∧
    (readPlayerState [] "listener1").state.currentIndex = some 0 :=
  read_state_default [] "listener1" rfl

/-- C10: the stream endpoint requires no authentication — the response is
identical whatever the `Authorization` header holds (valid token, invalid
token, or none): the handler never reads it. -/
theorem stream_auth_independent (tracks : List (String × Track)) (fsys : FileSys)
    (store : List String) (tid : String) (rng : Option String)
    (auth1 auth2 : Option String) :
    streamHandler tracks fsys store ⟨tid, rng, auth1⟩ =
    streamHandler tracks fsys store ⟨tid, rng, auth2⟩ := rfl

/-- Storage root for the path-escape evaluation. -/
def escStore : List String := ["srv", "store", "tracks"]

/-- A track document whose stored relative path climbs out of the storage
root. The API accepts such documents: `TrackCreateSchema` validates `fileRel`
only as a non-empty string (server.js:244). -/
def escTrack : Track := ⟨["..", "..", "secret", "passwd"]⟩

/-- A filesystem with a file outside the storage root. -/
def escFs : FileSys := [(["srv", "secret", "passwd"], [7, 7, 7])]

/-- C4: the stream endpoint performs no containment validation. At a concrete
track whose `fileRel` escapes the storage root, the resolved path is outside
the root, `assertRelativeToStore` would have rejected it — but the handler
never calls it (it is only invoked on the CLI ingestion paths,
server.js:1087/1110) — and the full file content outside the root is served
with status 200. -/
theorem stream_serves_file_outside_store :
    resolvePath escStore escTrack.fileRel = ["srv", "secret", "passwd"] ∧
    escStore.isPrefixOf (resolvePath escStore escTrack.fileRel) = false ∧
    assertRelativeToStore escStore (resolvePath escStore escTrack.fileRel) =
      Except.error "File must be inside STORE_DIR" ∧
    streamHandler [("t1", escTrack)] escFs escStore ⟨"t1", none, none⟩ =
      { status := 200, contentLength := some 3, contentRange := none
        contentType := some "application/octet-stream", body := [7, 7, 7] } :=
  ⟨rfl, rfl, rfl, rfl⟩

/-- A session record past its `expiresAt` (1000) at the evaluation time
(2000), with consistent fingerprint and hash for secret `"r1"`. -/
def expiredSession : Session :=
  { uid := "u1", refreshFp := fpToken "r1", refreshHash := hashToken "r1"
    disabled := false, expiresAt := 1000 }

/-- A session record whose stored hash does not verify against the secret that
produced its fingerprint (a corrupted record), exercising the hash check. -/
def corruptSession : Session :=
  { uid := "u1", refreshFp := fpToken "r1", refreshHash := hashToken "other"
    disabled := false, expiresAt := 9999 }

/-- C3: the refresh handler does fail with `InvalidSession` when no record
matches the fingerprint, and with `InvalidRefresh` when the stored hash does
not verify — but it never consults `expiresAt`: at a session whose
`expiresAt` (1000) is in the past at request time (2000), refresh still
returns a fresh access token. -/
theorem refresh_checks_fp_and_hash_but_not_expiry :
    refreshHandler [] ["u1"] [] 2000 (some "r1") = .invalidSession ∧
    refreshHandler [corruptSession] ["u1"] [] 2000 (some "r1") = .invalidRefresh ∧
    expiredSession.expiresAt < 2000 ∧
    refreshHandler [expiredSession] ["u1"] [] 2000 (some "r1") = .ok "u1" "user" :=
  ⟨rfl, rfl, by decide, rfl⟩

/-- A registry with the origin connection of a playback-state update and one
further connection of the same listener, both authenticated and open. -/
def echoReg : Registry :=
  [("origin", ⟨some "u1", some "phone", true⟩),
   ("other", ⟨some "u1", some "laptop", true⟩)]

/-- C1 counterexample: a `now_playing` update sent by connection `"origin"` is
broadcast back to `"origin"` itself — `broadcastToUser` has no excluded-origin
parameter, so the claim that the message is never delivered back to the origin
connection is false. -/
theorem now_playing_echoes_to_origin :
    (wsNowPlaying [] echoReg "origin"
      { deviceId := some "phone", trackId := some "T1", positionMs := some 5000 } 7).2 =
      ["origin", "other"] ∧
    "origin" ∈ (wsNowPlaying [] echoReg "origin"
      { deviceId := some "phone", trackId := some "T1", positionMs := some 5000 } 7).2 :=
  ⟨rfl, by decide⟩

/-- C1 (amended): a broadcast to a listener is delivered exactly to the
connections whose `uid` matches and whose socket is open — every authenticated
live connection of the listener, the origin connection included; connections
that are unauthenticated, belong to another listener, or are not in a sendable
state receive nothing. -/
theorem broadcastToUser_delivers_to_matching_open (reg : Registry)
    (uidStr c : String) :
    c ∈ broadcastToUser reg uidStr ↔
      ∃ m : ConnMeta, (c, m) ∈ reg ∧ m.uid = some uidStr ∧ m.isOpen = true := by
  unfold broadcastToUser broadcastRaw
  constructor
  · intro hc
    rcases List.mem_map.mp hc with ⟨⟨k, m⟩, hpair, hfst⟩
    rcases List.mem_filter.mp hpair with ⟨hmem, hpred⟩
    simp only [Bool.and_eq_true, beq_iff_eq] at hpred
    subst hfst
    exact ⟨m, hmem, hpred.1, hpred.2⟩
  · rintro ⟨m, hmem, hu, ho⟩
    exact List.mem_map.mpr
      ⟨(c, m), List.mem_filter.mpr ⟨hmem, by simp [hu, ho]⟩, rfl⟩

/-- The caller's state document with active device `"desk"`. -/
def ctlStates : List (String × PState) := [("u1", { activeDeviceId := some "desk" })]

/-- A registry where the listener's only open connection is a different device
(`"phone"`) than the active one (`"desk"`). -/
def ctlReg : Registry := [("c2", ⟨some "u1", some "phone", true⟩)]

/-- C2 counterexample: `POST /api/player/control` broadcasts the command via
`broadcastToUser`, so connection `"c2"` — whose device id `"phone"` differs
from the target `"desk"` — receives the message, refuting "delivered only to
the connection(s) matching both the caller's listenerId and the target
deviceId". -/
theorem control_http_delivers_to_nontarget :
    controlHTTP ctlStates ctlReg "u1" = .sent "desk" ["c2"] ∧
    ctlReg.lookup "c2" = some ⟨some "u1", some "phone", true⟩ ∧
    some "phone" ≠ some "desk" :=
  ⟨rfl, rfl, by decide⟩

/-- C2 (amended): when the caller has no active device, `POST
/api/player/control` replies `NoActiveDevice` and nothing is sent; when an
active device is set, the HTTP handler broadcasts the command (tagged with the
target in its `to` field) to every open connection of the caller, not only the
target device; the realtime `control` path, in contrast, delivers only to
connections matching both the caller's uid and the target device id (but
surfaces no error when nothing matches). -/
theorem control_routing_behavior :
    (∀ (states : List (String × PState)) (reg : Registry) (uid : String),
      (states.lookup uid).bind (fun st => st.activeDeviceId) = none →
        controlHTTP states reg uid = .noActiveDevice) ∧
    (∀ (states : List (String × PState)) (reg : Registry) (uid t : String),
      (states.lookup uid).bind (fun st => st.activeDeviceId) = some t →
        controlHTTP states reg uid = .sent t (broadcastToUser reg uid)) ∧
    (∀ (states : List (String × PState)) (reg : Registry) (connId : String)
        (msgTo : Option String) (c : String),
      c ∈ wsControl states reg connId msgTo →
        ∃ (uid : String) (m : ConnMeta),
          (reg.lookup connId).bind (fun mm => mm.uid) = some uid ∧
          (c, m) ∈ reg ∧ m.uid = some uid ∧
          m.deviceId = msgTo.orElse
            (fun _ => (states.lookup uid).bind (fun st => st.activeDeviceId)) ∧
          m.isOpen = true) := by
  refine ⟨?_, ?_, ?_⟩
  · intro states reg uid h
    unfold controlHTTP
    rw [h]
  · intro states reg uid t h
    unfold controlHTTP
    rw [h]
  · intro states reg connId msgTo c hc
    unfold wsControl at hc
    rcases hb : (reg.lookup connId).bind (fun m => m.uid) with _ | uid
    · rw [hb] at hc
      exact absurd hc (by simp)
    · rw [hb] at hc
      unfold broadcastRaw at hc
      rcases List.mem_map.mp hc with ⟨⟨k, m⟩, hpair, hfst⟩
      rcases List.mem_filter.mp hpair with ⟨hmem, hpred⟩
      simp only [Bool.and_eq_true, beq_iff_eq] at hpred
      subst hfst
      exact ⟨uid, m, rfl, hmem, hpred.1.1, hpred.1.2, hpred.2⟩

/-- A registry whose only connection is the active device itself. -/
def wsCtlReg : Registry := [("c1", ⟨some "u1", some "desk", true⟩)]

/-- Witness for C2: the three behaviors at concrete inputs — empty state
store gives `NoActiveDevice`; with active device `"desk"` the HTTP broadcast
goes to the whole-listener set; a delivered realtime control message lands on
a connection matching both uid and target. -/
theorem control_routing_behavior_witness :
    controlHTTP [] ctlReg "u1" = .noActiveDevice ∧
    controlHTTP ctlStates ctlReg "u1" = .sent "desk" (broadcastToUser ctlReg "u1") ∧
    (∃ (uid : String) (m : ConnMeta),
      (wsCtlReg.lookup "c1").bind (fun mm => mm.uid) = some uid ∧
      ("c1", m) ∈ wsCtlReg ∧ m.uid = some uid ∧
      m.deviceId = (none : Option String).orElse
        (fun _ => (ctlStates.lookup uid).bind (fun st => st.activeDeviceId)) ∧
      m.isOpen = true) :=
  ⟨control_routing_behavior.1 [] ctlReg "u1" rfl,
   control_routing_behavior.2.1 ctlStates ctlReg "u1" "desk" rfl,
   control_routing_behavior.2.2 ctlStates wsCtlReg "c1" none "c1" (by decide)⟩

/-- After logout, the (unique) session record of the listener is disabled:
`logoutHandler` marks the first record with the caller's uid, and by the
one-record-per-listener shape of the store that is the only one. -/
lemma logout_disables_matching (uid : String) :
    ∀ sessions : List Session,
      (sessions.filter (fun s => s.uid == uid)).length ≤ 1 →
      ∀ s ∈ logoutHandler sessions uid, s.uid = uid → s.disabled = true := by
  intro sessions
  induction sessions with
  | nil => intro _ s hs; simp [logoutHandler] at hs
  | cons t rest ih =>
    intro huniq s hs hsu
    by_cases ht : t.uid = uid
    · rw [logoutHandler, if_pos (by simp [ht])] at hs
      rcases List.mem_cons.mp hs with h | h
      · rw [h]
      · exfalso
        have hfil : (rest.filter (fun s => s.uid == uid)).length ≥ 1 := by
          have : s ∈ rest.filter (fun s => s.uid == uid) :=
            List.mem_filter.mpr ⟨h, by simp [hsu]⟩
          exact List.length_pos.mpr (List.ne_nil_of_mem this)
        rw [List.filter_cons, if_pos (by simp [ht])] at huniq
        simp only [List.length_cons] at huniq
        omega
    · rw [logoutHandler, if_neg (by simp [ht])] at hs
      rcases List.mem_cons.mp hs with h | h
      · exact absurd (h ▸ hsu) ht
      · have huniq' : (rest.filter (fun s => s.uid == uid)).length ≤ 1 := by
          rw [List.filter_cons, if_neg (by simp [ht])] at huniq
          exact huniq
        exact ih huniq' s h hsu

/-- After logout, no session carrying the listener's refresh fingerprint is
still enabled: any fingerprint-matching record belongs to the listener, and
the listener's only record was just disabled. -/
lemma logout_no_live_fp (uid r : String) :
    ∀ sessions : List Session,
      (∀ s ∈ sessions, s.refreshFp = fpToken r → s.uid = uid) →
      (sessions.filter (fun s => s.uid == uid)).length ≤ 1 →
      ∀ s ∈ logoutHandler sessions uid, s.refreshFp = fpToken r →
        s.disabled = true := by
  intro sessions
  induction sessions with
  | nil => intro _ _ s hs; simp [logoutHandler] at hs
  | cons t rest ih =>
    intro hfp huniq s hs hsfp
    by_cases ht : t.uid = uid
    · rw [logoutHandler, if_pos (by simp [ht])] at hs
      rcases List.mem_cons.mp hs with h | h
      · rw [h]
      · exfalso
        have hsu : s.uid = uid := hfp s (List.mem_cons_of_mem t h) hsfp
        have hfil : (rest.filter (fun s => s.uid == uid)).length ≥ 1 := by
          have : s ∈ rest.filter (fun s => s.uid == uid) :=
            List.mem_filter.mpr ⟨h, by simp [hsu]⟩
          exact List.length_pos.mpr (List.ne_nil_of_mem this)
        rw [List.filter_cons, if_pos (by simp [ht])] at huniq
        simp only [List.length_cons] at huniq
        omega
    · rw [logoutHandler, if_neg (by simp [ht])] at hs
      rcases List.mem_cons.mp hs with h | h
      · exact absurd (hfp t (List.mem_cons_self t rest) (h ▸ hsfp)) ht
      · have huniq' : (rest.filter (fun s => s.uid == uid)).length ≤ 1 := by
          rw [List.filter_cons, if_neg (by simp [ht])] at huniq
          exact huniq
        exact ih (fun s hsm => hfp s (List.mem_cons_of_mem t hsm)) huniq' s h hsfp

/-- C7: logout marks the listener's session record disabled, and every
subsequent refresh presenting the previously issued secret fails with
`InvalidSession` — `verifyRefreshByFp` only matches non-disabled records. The
hypotheses state the reachable shape of the session store: the fingerprint of
the presented secret only occurs on the listener's own record (fingerprints
are injective derivations of the secret), and the store holds at most one
record per listener (register inserts once, login upserts by uid). -/
theorem logout_blocks_refresh (sessions : List Session) (uid r : String)
    (users artists : List String) (now : Int)
    (hfp : ∀ s ∈ sessions, s.refreshFp = fpToken r → s.uid = uid)
    (huniq : (sessions.filter (fun s => s.uid == uid)).length ≤ 1) :
    (∀ s ∈ logoutHandler sessions uid, s.uid = uid → s.disabled = true) ∧
    refreshHandler (logoutHandler sessions uid) users artists now (some r) =
      .invalidSession := by
  refine ⟨logout_disables_matching uid sessions huniq, ?_⟩
  have hnone : verifyRefreshByFp (logoutHandler sessions uid) (fpToken r) = none := by
    unfold verifyRefreshByFp
    rw [List.find?_eq_none]
    intro s hs
    simp only [Bool.and_eq_true, beq_iff_eq, Bool.not_eq_true', not_and]
    intro hfpEq
    rw [logout_no_live_fp uid r sessions hfp huniq s hs hfpEq]
    simp
  simp only [refreshHandler, hnone]

/-- The session store right after a login that issued refresh secret `"r1"`
to listener `"u1"`. -/
def loggedInSessions : List Session :=
  [{ uid := "u1", refreshFp := fpToken "r1", refreshHash := hashToken "r1"
     disabled := false, expiresAt := 500 }]

/-- Witness for C7: after `"u1"` logs out, refreshing with the previously
issued secret `"r1"` is rejected as `InvalidSession`. -/
theorem logout_blocks_refresh_witness :
    refreshHandler (logoutHandler loggedInSessions "u1") ["u1"] [] 100 (some "r1") =
      .invalidSession :=
  (logout_blocks_refresh loggedInSessions "u1" "r1" ["u1"] [] 100
    (by decide) (by decide)).2

/-- Field-wise behavior of a patch sequence: for any field whose single-patch
behavior is "present overwrites, absent preserves", the folded result holds
the value of the most recent patch that set the field, else the initial
value. -/
lemma foldl_applyPatch_field {α : Type} (g : PState → Option α) (f : Patch → Option α)
    (hg : ∀ st p, g (applyPatch st p) = (f p).orElse (fun _ => g st)) :
    ∀ (ps : List Patch) (st : PState),
      g (ps.foldl applyPatch st) = (lastSet f ps).orElse (fun _ => g st) := by
  intro ps
  induction ps with
  | nil => intro st; simp [lastSet, Option.orElse]
  | cons p ps ih =>
    intro st
    rw [List.foldl_cons, ih, hg]
    cases h : lastSet f ps <;> cases hf : f p <;>
      simp [lastSet, h, hf, Option.orElse]

/-- `updateOne` upsert semantics at the key: the document under `uid` after an
upsert is the previous document (or the empty one) with the patch applied. -/
lemma lookup_upsertState (uid : String) (p : Patch) :
    ∀ states : List (String × PState),
      (upsertState states uid p).lookup uid =
        some (applyPatch ((states.lookup uid).getD emptyPState) p) := by
  intro states
  induction states with
  | nil => simp [upsertState, List.lookup]
  | cons kv rest ih =>
    obtain ⟨k, st⟩ := kv
    by_cases hk : k = uid
    · subst hk
      simp [upsertState, List.lookup]
    · have hbeq : (k == uid) = false := beq_eq_false_iff_ne.mpr hk
      have hbeq' : (uid == k) = false := beq_eq_false_iff_ne.mpr (Ne.symm hk)
      simp [upsertState, List.lookup, hbeq, hbeq', ih]

/-- Applying a non-empty patch sequence through the upsert endpoint leaves,
under the listener's key, exactly the fold of `applyPatch` over the sequence. -/
lemma lookup_foldl_upsert (uid : String) :
    ∀ (ps : List Patch) (states : List (String × PState)), ps ≠ [] →
      ((ps.foldl (fun s p => upsertState s uid p) states).lookup uid) =
        some (ps.foldl applyPatch ((states.lookup uid).getD emptyPState)) := by
  intro ps
  induction ps with
  | nil => intro states h; exact absurd rfl h
  | cons p ps ih =>
    intro states _
    by_cases hps : ps = []
    · subst hps
      simp [lookup_upsertState]
    · rw [List.foldl_cons, ih (upsertState states uid p) hps,
          lookup_upsertState, Option.getD_some, List.foldl_cons]

/-- C8: for any non-empty sequence of playback-state patches for one listener,
the stored document is the per-field merge of the sequence, and each field of
the merged document equals the value from the most recent patch that set that
field — fields set by earlier patches and absent from later ones are
preserved (they fall through to the earlier value), and `updatedAt` is the
stamp of the last patch. -/
theorem upsert_last_write_wins (states : List (String × PState)) (uid : String)
    (ps : List Patch) (hne : ps ≠ []) :
    ((ps.foldl (fun s p => upsertState s uid p) states).lookup uid) =
      some (ps.foldl applyPatch ((states.lookup uid).getD emptyPState)) ∧
    (∀ st : PState,
      (ps.foldl applyPatch st).trackId =
        (lastSet (fun p => p.trackId) ps).orElse (fun _ => st.trackId) ∧
      (ps.foldl applyPatch st).positionMs =
        (lastSet (fun p => p.positionMs) ps).orElse (fun _ => st.positionMs) ∧
      (ps.foldl applyPatch st).isPlaying =
        (lastSet (fun p => p.isPlaying) ps).orElse (fun _ => st.isPlaying) ∧
      (ps.foldl applyPatch st).queue =
        (lastSet (fun p => p.queue) ps).orElse (fun _ => st.queue) ∧
      (ps.foldl applyPatch st).currentIndex =
        (lastSet (fun p => p.currentIndex) ps).orElse (fun _ => st.currentIndex) ∧
      (ps.foldl applyPatch st).updatedBy =
        (lastSet (fun p => p.updatedBy) ps).orElse (fun _ => st.updatedBy) ∧
      (ps.foldl applyPatch st).updatedAt =
        (lastSet (fun p => some p.updatedAt) ps).orElse (fun _ => st.updatedAt)) := by
  refine ⟨lookup_foldl_upsert uid ps states hne, fun st => ?_⟩
  exact ⟨foldl_applyPatch_field (fun s => s.trackId) _ (fun _ _ => rfl) ps st,
    foldl_applyPatch_field (fun s => s.positionMs) _ (fun _ _ => rfl) ps st,
    foldl_applyPatch_field (fun s => s.isPlaying) _ (fun _ _ => rfl) ps st,
    foldl_applyPatch_field (fun s => s.queue) _ (fun _ _ => rfl) ps st,
    foldl_applyPatch_field (fun s => s.currentIndex) _ (fun _ _ => rfl) ps st,
    foldl_applyPatch_field (fun s => s.updatedBy) _ (fun _ _ => rfl) ps st,
    foldl_applyPatch_field (fun s => s.updatedAt) (fun p => some p.updatedAt)
      (fun _ _ => rfl) ps st⟩

/-- First patch of the witness: device `A` sets the track and the position. -/
def patchA : Patch :=
  { updatedAt := 1, updatedBy := some "A"
    trackId := some "T1", positionMs := some 100 }

/-- Second patch of the witness: device `B` sets only the position. -/
def patchB : Patch :=
  { updatedAt := 2, updatedBy := some "B", positionMs := some 200 }

/-- Witness for C8: after device `A` writes `\x7btrackId: T1, positionMs:
100\x7d` and device `B` writes `\x7bpositionMs: 200\x7d`, the stored document
keeps `trackId = T1` from the earlier patch while `positionMs`, `updatedBy`
and `updatedAt` come from the later one. -/
theorem upsert_last_write_wins_witness :
    (([patchA, patchB].foldl (fun s p => upsertState s "u1" p) []).lookup "u1") =
      some ([patchA, patchB].foldl applyPatch emptyPState) ∧
    ([patchA, patchB].foldl applyPatch emptyPState).trackId = some "T1" ∧
    ([patchA, patchB].foldl applyPatch emptyPState).positionMs = some 200 ∧
    ([patchA, patchB].foldl applyPatch emptyPState).updatedBy = some "B" ∧
    ([patchA, patchB].foldl applyPatch emptyPState).updatedAt = some 2 := by
  have h := upsert_last_write_wins [] "u1" [patchA, patchB] (by simp)
  exact ⟨h.1, rfl, rfl, rfl, rfl⟩

/-- Reduction of the stream handler once the track and the file exist. -/
lemma streamHandler_found (tracks : List (String × Track)) (fsys : FileSys)
    (store : List String) (tid : String) (auth : Option String)
    (rng : Option String) (tr : Track) (bytes : List Nat)
    (htr : tracks.lookup tid = some tr)
    (hfs : fsys.lookup (resolvePath store tr.fileRel) = some bytes) :
    streamHandler tracks fsys store ⟨tid, rng, auth⟩ =
      match rng with
      | none => noRangeResp (safeContentTypeByExt (resolvePath store tr.fileRel)) bytes
      | some r => rangeResp (safeContentTypeByExt (resolvePath store tr.fileRel)) bytes r := by
  simp only [streamHandler, htr, hfs]

/-- The range branch answers `416` with an empty body on a malformed header or
an out-of-bounds resolved range. -/
lemma rangeResp_unsatisfiable (ctype : String) (bytes : List Nat) (r : String)
    (hbad : parseRange r = none ∨
      ∃ s eo, parseRange r = some (s, eo) ∧
        ((s : Int) ≥ (bytes.length : Int) ∨
          resolvedEnd s eo (bytes.length : Int) ≥ (bytes.length : Int))) :
    rangeResp ctype bytes r = resp416 ctype := by
  unfold rangeResp
  rcases hbad with h | ⟨s, eo, hp, hcond⟩
  · rw [h]
  · rw [hp]
    dsimp only
    rw [if_pos hcond]

/-- The range branch answers `206` with the capped end, the matching
`Content-Range` and `Content-Length` headers, and the byte slice, whenever the
parsed start is within the file. -/
lemma rangeResp_satisfiable (ctype : String) (bytes : List Nat) (r : String)
    (s : Nat) (eo : Option Nat)
    (hp : parseRange r = some (s, eo))
    (hs : (s : Int) < (bytes.length : Int)) :
    rangeResp ctype bytes r =
      { status := 206
        contentLength := some (resolvedEnd s eo (bytes.length : Int) - (s : Int) + 1)
        contentRange := some (renderContentRange (s : Int)
          (resolvedEnd s eo (bytes.length : Int)) (bytes.length : Int))
        contentType := some ctype
        body := sliceBytes bytes (s : Int) (resolvedEnd s eo (bytes.length : Int)) } := by
  unfold rangeResp
  rw [hp]
  dsimp only
  rw [if_neg]
  push_neg
  refine ⟨hs, ?_⟩
  have hle : resolvedEnd s eo (bytes.length : Int) ≤ (bytes.length : Int) - 1 := by
    unfold resolvedEnd
    cases eo <;> exact min_le_right _ _
  omega

/-- C5: for an existing track with an existing file, a syntactically malformed
`Range` header, a parsed start at or past the file size, or a resolved end at
or past the file size, each produce `416 Range Not Satisfiable` with an empty
body. -/
theorem stream_range_unsatisfiable_416 (tracks : List (String × Track))
    (fsys : FileSys) (store : List String) (tid : String) (auth : Option String)
    (tr : Track) (bytes : List Nat) (r : String)
    (htr : tracks.lookup tid = some tr)
    (hfs : fsys.lookup (resolvePath store tr.fileRel) = some bytes)
    (hbad : parseRange r = none ∨
      ∃ s eo, parseRange r = some (s, eo) ∧
        ((s : Int) ≥ (bytes.length : Int) ∨
          resolvedEnd s eo (bytes.length : Int) ≥ (bytes.length : Int))) :
    (streamHandler tracks fsys store ⟨tid, some r, auth⟩).status = 416 ∧
    (streamHandler tracks fsys store ⟨tid, some r, auth⟩).body = [] := by
  rw [streamHandler_found tracks fsys store tid auth (some r) tr bytes htr hfs]
  dsimp only
  rw [rangeResp_unsatisfiable _ bytes r hbad]
  exact ⟨rfl, rfl⟩

/-- The storage root of the streaming witnesses. -/
def storeA : List String := ["music"]

/-- The track of the streaming witnesses: a well-formed relative path. -/
def trackA : Track := ⟨["a.mp3"]⟩

/-- The 1000-byte file of the streaming witnesses (the spec's worked
example). -/
def file1000 : List Nat := List.replicate 1000 0

/-- The filesystem of the streaming witnesses. -/
def fsA : FileSys := [(["music", "a.mp3"], file1000)]

/-- The track table of the streaming witnesses. -/
def tracksA : List (String × Track) := [("tA", trackA)]

/-- Witness for C5: on the 1000-byte file, `Range: bytes=2000-` is rejected
with `416` and an empty body. -/
theorem stream_range_unsatisfiable_416_witness :
    (streamHandler tracksA fsA storeA ⟨"tA", some "bytes=2000-", none⟩).status = 416 ∧
    (streamHandler tracksA fsA storeA ⟨"tA", some "bytes=2000-", none⟩).body = [] :=
  stream_range_unsatisfiable_416 tracksA fsA storeA "tA" none trackA file1000
    "bytes=2000-" rfl rfl
    (Or.inr ⟨2000, none, rfl,
      Or.inl (by simp only [file1000, List.length_replicate]; norm_num)⟩)

/-- C6: for an existing track with an existing file — no `Range` header gives
`200` with `Content-Length = fileSize` and the whole file as body; a
well-formed satisfiable `bytes=start-end` gives `206` with
`Content-Range: bytes start-end/fileSize` and `Content-Length = end-start+1`
where the end is capped at `fileSize - 1`; an omitted end is resolved to
`min(start + 1 MiB - 1, fileSize - 1)` rather than extending to EOF. -/
theorem stream_success_responses (tracks : List (String × Track)) (fsys : FileSys)
    (store : List String) (tid : String) (auth : Option String) (tr : Track)
    (bytes : List Nat)
    (htr : tracks.lookup tid = some tr)
    (hfs : fsys.lookup (resolvePath store tr.fileRel) = some bytes) :
    (streamHandler tracks fsys store ⟨tid, none, auth⟩ =
      { status := 200, contentLength := some (bytes.length : Int)
        contentRange := none
        contentType := some (safeContentTypeByExt (resolvePath store tr.fileRel))
        body := bytes }) ∧
    (∀ (r : String) (s e0 : Nat), parseRange r = some (s, some e0) →
      (s : Int) < (bytes.length : Int) → s ≤ e0 →
      streamHandler tracks fsys store ⟨tid, some r, auth⟩ =
        { status := 206
          contentLength :=
            some (min (e0 : Int) ((bytes.length : Int) - 1) - (s : Int) + 1)
          contentRange := some (renderContentRange (s : Int)
            (min (e0 : Int) ((bytes.length : Int) - 1)) (bytes.length : Int))
          contentType := some (safeContentTypeByExt (resolvePath store tr.fileRel))
          body := sliceBytes bytes (s : Int)
            (min (e0 : Int) ((bytes.length : Int) - 1)) }) ∧
    (∀ (r : String) (s : Nat), parseRange r = some (s, none) →
      (s : Int) < (bytes.length : Int) →
      streamHandler tracks fsys store ⟨tid, some r, auth⟩ =
        { status := 206
          contentLength := some (min ((s : Int) + 1024 * 1024 - 1)
            ((bytes.length : Int) - 1) - (s : Int) + 1)
          contentRange := some (renderContentRange (s : Int)
            (min ((s : Int) + 1024 * 1024 - 1) ((bytes.length : Int) - 1))
            (bytes.length : Int))
          contentType := some (safeContentTypeByExt (resolvePath store tr.fileRel))
          body := sliceBytes bytes (s : Int)
            (min ((s : Int) + 1024 * 1024 - 1) ((bytes.length : Int) - 1)) }) := by
  refine ⟨?_, ?_, ?_⟩
  · rw [streamHandler_found tracks fsys store tid auth none tr bytes htr hfs]
    rfl
  · intro r s e0 hp hs _
    rw [streamHandler_found tracks fsys store tid auth (some r) tr bytes htr hfs]
    exact rangeResp_satisfiable _ bytes r s (some e0) hp hs
  · intro r s hp hs
    rw [streamHandler_found tracks fsys store tid auth (some r) tr bytes htr hfs]
    exact rangeResp_satisfiable _ bytes r s none hp hs

set_option maxRecDepth 100000 in
/-- Witness for C6, the spec's worked example on a 1000-byte file: no `Range`
gives `200` with the full 1000 bytes; `bytes=0-499` gives `206`,
`Content-Range: bytes 0-499/1000`, 500 bytes; `bytes=900-1500` is capped to
`bytes 900-999/1000`; `bytes=0-` (omitted end) stops at
`min(0 + 1 MiB - 1, 999) = 999`. -/
theorem stream_success_responses_witness :
    (streamHandler tracksA fsA storeA ⟨"tA", none, none⟩).status = 200 ∧
    (streamHandler tracksA fsA storeA ⟨"tA", none, none⟩).contentLength = some 1000 ∧
    (streamHandler tracksA fsA storeA ⟨"tA", none, none⟩).body = file1000 ∧
    (streamHandler tracksA fsA storeA ⟨"tA", some "bytes=0-499", none⟩).status = 206 ∧
    (streamHandler tracksA fsA storeA ⟨"tA", some "bytes=0-499", none⟩).contentRange =
      some "bytes 0-499/1000" ∧
    (streamHandler tracksA fsA storeA ⟨"tA", some "bytes=0-499", none⟩).contentLength =
      some 500 ∧
    (streamHandler tracksA fsA storeA ⟨"tA", some "bytes=0-499", none⟩).body.length = 500 ∧
    (streamHandler tracksA fsA storeA ⟨"tA", some "bytes=900-1500", none⟩).contentRange =
      some "bytes 900-999/1000" ∧
    (streamHandler tracksA fsA storeA ⟨"tA", some "bytes=0-", none⟩).contentRange =
      some "bytes 0-999/1000" := by
  have h := stream_success_responses tracksA fsA storeA "tA" none trackA file1000 rfl rfl
  have h1 := h.1
  have h2 := h.2.1 "bytes=0-499" 0 499 rfl
    (by norm_num [file1000, List.length_replicate]) (by norm_num)
  have h3 := h.2.1 "bytes=900-1500" 900 1500 rfl
    (by norm_num [file1000, List.length_replicate]) (by norm_num)
  have h4 := h.2.2 "bytes=0-" 0 rfl
    (by norm_num [file1000, List.length_replicate])
  refine ⟨by rw [h1], ?_, by rw [h1], by rw [h2], ?_, ?_, ?_, ?_, ?_⟩
  · rw [h1]
    norm_num [file1000, List.length_replicate]
  · rw [h2]
    decide
  · rw [h2]
    decide
  · rw [h2]
    decide
  · rw [h3]
    decide
  · rw [h4]
    decide

end WFLY
